import Mathlib

/-!
Shallow embedding of `src/modeling_v2.ipynb` (diabetes prediction notebook):
data loading, dimensionality-reduction cells, the `evaluate_model` harness,
the model-comparison/selection logic, the SHAP attribution cells and the
persistence cell.  Library internals (gradient boosting, PCA optimisation,
autoencoder training, SHAP value computation) are external collaborators:
they enter as parameters or as opaque numeric inputs, while every piece of
logic written in the notebook itself is embedded as an executable function.
Matrices are lists of rows of rationals; labels are lists of booleans.
-/

namespace Diabetes

/-- A feature matrix: rows are samples, columns are numeric features. -/
abbrev Matrix := List (List ℚ)

/- ## Exceptions

The notebook interacts with Python exceptions in exactly two places: the
`try/except Exception` around the pickle load, and the
`try/except AttributeError` around `predict_proba`/`roc_auc_score` in
`evaluate_model`.  `AttributeError` is what Python raises when
`predict_proba` is missing; `roc_auc_score` raises `ValueError` on
degenerate label vectors. -/

/-- The Python exception kinds relevant to the notebook's handlers. -/
inductive PyError where
  | attributeError
  | valueError
deriving DecidableEq, Repr

/- ## Fitted models

A fitted classifier exposes hard-label prediction and, optionally, a
probability output (`predict_proba(X)[:, 1]`, the positive-class column).
Absence of the attribute is what makes `model.predict_proba` raise
`AttributeError` in Python. -/

/-- A fitted classifier: hard-label prediction plus optional positive-class
probability output (`predict_proba(X)[:, 1]`). -/
structure MLModel where
  predict : Matrix → List Bool
  predict_proba : Option (Matrix → List ℚ)

/-- An unfitted classifier: `fit` consumes the training partition and
produces a fitted model.  The fitting algorithm itself is library code. -/
structure Classifier where
  fit : Matrix → List Bool → MLModel

/-- Calling `model.predict_proba(X_test)[:, 1]`: raises `AttributeError`
when the classifier does not expose probability output. -/
def predict_proba_call (m : MLModel) (X : Matrix) : Except PyError (List ℚ) :=
  match m.predict_proba with
  | some f => .ok (f X)
  | none => .error .attributeError

/- ## Metrics (`sklearn.metrics`)

Embedded with their mathematical definitions over exact rationals.
`precision_score`/`recall_score`/`f1_score` return 0 on an empty
denominator (sklearn's `zero_division` default behaviour), and
`roc_auc_score` raises `ValueError` when only one class is present. -/

/-- True positives: samples where both truth and prediction are positive. -/
def countTP (y p : List Bool) : Nat :=
  ((y.zip p).filter (fun q => q.1 && q.2)).length

/-- False positives: negative samples predicted positive. -/
def countFP (y p : List Bool) : Nat :=
  ((y.zip p).filter (fun q => !q.1 && q.2)).length

/-- False negatives: positive samples predicted negative. -/
def countFN (y p : List Bool) : Nat :=
  ((y.zip p).filter (fun q => q.1 && !q.2)).length

/-- `accuracy_score`: fraction of samples predicted correctly. -/
def accuracy_score (y p : List Bool) : ℚ :=
  (((y.zip p).filter (fun q => q.1 == q.2)).length : ℚ) / (y.length : ℚ)

/-- `precision_score`: TP / (TP + FP), 0 when no positive predictions. -/
def precision_score (y p : List Bool) : ℚ :=
  let tp := countTP y p
  let fp := countFP y p
  if tp + fp = 0 then 0 else (tp : ℚ) / ((tp : ℚ) + (fp : ℚ))

/-- `recall_score`: TP / (TP + FN), 0 when no positive samples. -/
def recall_score (y p : List Bool) : ℚ :=
  let tp := countTP y p
  let fn := countFN y p
  if tp + fn = 0 then 0 else (tp : ℚ) / ((tp : ℚ) + (fn : ℚ))

/-- `f1_score`: harmonic mean of precision and recall, 0 when both vanish. -/
def f1_score (y p : List Bool) : ℚ :=
  let pr := precision_score y p
  let rc := recall_score y p
  if pr + rc = 0 then 0 else 2 * pr * rc / (pr + rc)

/-- `roc_auc_score`: Mann–Whitney formulation, the fraction of
(positive, negative) pairs ranked correctly by the score (ties count 1/2).
Raises `ValueError` when `y` holds a single class. -/
def roc_auc_score (y : List Bool) (scores : List ℚ) : Except PyError ℚ :=
  let pairs := y.zip scores
  let pos := (pairs.filter (fun q => q.1)).map (fun q => q.2)
  let neg := (pairs.filter (fun q => !q.1)).map (fun q => q.2)
  if pos.length = 0 ∨ neg.length = 0 then .error .valueError
  else
    .ok ((pos.map (fun a =>
          (neg.map (fun b =>
            if b < a then (1 : ℚ) else if a = b then 1/2 else 0)).sum)).sum
        / ((pos.length : ℚ) * (neg.length : ℚ)))

/- ## The evaluation harness (`evaluate_model`, notebook cell 11)

The Python function fits the classifier, predicts hard labels, computes the
four threshold metrics unconditionally, and wraps the probability/AUC
computation in `try: ... except AttributeError: auc = None`.  Any other
exception raised inside the `try` block (e.g. `ValueError` from
`roc_auc_score`) is not caught and terminates the run, which the embedding
renders as an `Except.error` result. -/

/-- The structured result bundle returned by `evaluate_model`: the fitted
model plus all metrics; `auc` is `none` exactly when it was recorded
absent. -/
structure EvalResult where
  model : MLModel
  accuracy : ℚ
  precision : ℚ
  recall' : ℚ
  f1 : ℚ
  auc : Option ℚ

/-- The `try predict_proba/roc_auc except AttributeError` block of
`evaluate_model`: `AttributeError` degrades to an absent AUC, anything
else propagates. -/
def auc_block (m : MLModel) (X_test : Matrix) (y_test : List Bool) :
    Except PyError (Option ℚ) :=
  match (predict_proba_call m X_test).bind (fun probs => roc_auc_score y_test probs) with
  | .ok a => .ok (some a)
  | .error .attributeError => .ok none
  | .error e => .error e

/-- `evaluate_model(model, X_train, X_test, y_train, y_test)`: fit, predict,
compute accuracy/precision/recall/F1, attempt AUC, return the bundle.
An uncaught exception surfaces as `Except.error`. -/
def evaluate_model (clf : Classifier) (X_train X_test : Matrix)
    (y_train y_test : List Bool) : Except PyError EvalResult :=
  let m := clf.fit X_train y_train
  let y_pred := m.predict X_test
  (auc_block m X_test y_test).map (fun auc =>
    { model := m
      accuracy := accuracy_score y_test y_pred
      precision := precision_score y_test y_pred
      recall' := recall_score y_test y_pred
      f1 := f1_score y_test y_pred
      auc := auc })

/- ## Model comparison and selection (notebook cells 17–23)

`comparison_df` is built from the seven results in a fixed construction
order; the `sort_values` display on cell 17's last line is not assigned
back, so the frame seen by `idxmax` still holds the construction order.
`best_model_idx = comparison_df['F1 Score'].idxmax()` is pandas `idxmax`:
the first index attaining the maximum. -/

/-- The comparison table's `Model` column, in its stable construction
order (cell 17, `models = [...]`). -/
def models : List String :=
  ["XGBoost", "LightGBM", "XGBoost+PCA", "LightGBM+PCA",
   "XGBoost+Autoencoder", "LightGBM+Autoencoder", "Stacked Ensemble"]

/-- The seven result bundles in the comparison table's row order
(cell 17, `results = [...]`). -/
def comparison_results (xgbR lgbR xgbPcaR lgbPcaR xgbAeR lgbAeR stackedR :
    EvalResult) : List EvalResult :=
  [xgbR, lgbR, xgbPcaR, lgbPcaR, xgbAeR, lgbAeR, stackedR]

/-- The maximum of a list of rationals (0 for the empty list, which pandas
would instead reject). -/
def listMax : List ℚ → ℚ
  | [] => 0
  | [x] => x
  | x :: y :: ys => max x (listMax (y :: ys))

/-- Pandas `Series.idxmax`: the first position whose value attains the
maximum of the column. -/
def idxmax (xs : List ℚ) : Nat :=
  xs.findIdx (fun x => decide (listMax xs ≤ x))

/-- `best_model_idx = comparison_df['F1 Score'].idxmax()`. -/
def best_model_idx (f1s : List ℚ) : Nat := idxmax f1s

/-- `best_model_name = comparison_df.loc[best_model_idx, 'Model']`. -/
def best_model_name (f1s : List ℚ) : String :=
  models.getD (best_model_idx f1s) ""

/- ## Dimensionality reduction (notebook cells 6–8)

PCA's fitted state is a centering vector and component matrix; `transform`
is centering followed by projection on each component.  The fitting
optimisation is library code and enters as a parameter.  sklearn's
`transform` reads the fitted attributes and never writes them, which the
embedding makes explicit by returning the (unchanged) parameters alongside
the output. -/

/-- Dot product of two feature rows. -/
def dot (a b : List ℚ) : ℚ := ((a.zip b).map (fun q => q.1 * q.2)).sum

/-- Componentwise difference (row minus the fitted mean). -/
def subRow (a b : List ℚ) : List ℚ := (a.zip b).map (fun q => q.1 - q.2)

/-- Fitted PCA state: the training-column means and the projection axes. -/
structure PCAParams where
  mean : List ℚ
  components : List (List ℚ)

/-- `pca.transform` of one row: centre, then project on each component. -/
def pcaTransformRow (p : PCAParams) (row : List ℚ) : List ℚ :=
  p.components.map (fun c => dot (subRow row p.mean) c)

/-- `pca.transform(X)`: row-by-row projection, preserving row order. -/
def pcaTransform (p : PCAParams) (X : Matrix) : Matrix :=
  X.map (pcaTransformRow p)

/-- `pca.transform` as it acts on the estimator object: it returns the
projected matrix and leaves the fitted parameters untouched. -/
def pcaTransformS (p : PCAParams) (X : Matrix) : Matrix × PCAParams :=
  (pcaTransform p X, p)

/-- Cell 6, lines `pca = PCA(7); X_train_pca = pca.fit_transform(X_train);
X_test_pca = pca.transform(X_test)`: fit on the training partition only,
then transform both partitions, threading the estimator state through every
call.  Returns (final fitted state, X_train_pca, X_test_pca). -/
def pcaCell (pcaFit : Matrix → PCAParams) (X_train X_test : Matrix) :
    PCAParams × Matrix × Matrix :=
  let p0 := pcaFit X_train
  let r1 := pcaTransformS p0 X_train
  let r2 := pcaTransformS r1.2 X_test
  (r2.2, r1.1, r2.1)

/-- The frozen encoder taken from the trained autoencoder
(`Model(inputs=autoencoder.input, outputs=bottleneck)`): its weights are
opaque library state, summarised by the induced row map. -/
structure EncoderWeights where
  encode : List ℚ → List ℚ

/-- `encoder_model.predict(X)`: row-by-row application of the frozen
encoder, returning the (unchanged) weights alongside the output. -/
def encoderPredictS (w : EncoderWeights) (X : Matrix) : Matrix × EncoderWeights :=
  (X.map w.encode, w)

/-- Cell 8: `autoencoder.fit(X_train, X_train, ...)` trains on the training
partition only; then `encoder_model.predict` is applied to both partitions,
threading the weights through every call.  Returns (final weights,
X_train_encoded, X_test_encoded). -/
def autoencoderCell (aeFit : Matrix → EncoderWeights) (X_train X_test : Matrix) :
    EncoderWeights × Matrix × Matrix :=
  let w0 := aeFit X_train
  let r1 := encoderPredictS w0 X_train
  let r2 := encoderPredictS r1.2 X_test
  (r2.2, r1.1, r2.1)

/- ## SHAP attribution (notebook cells 19–21)

`X_test.sample(1000, random_state=42)` draws 1000 distinct rows with a
seeded generator: with the seed fixed, repeated calls on the same frame
return the same rows.  The embedding realises the seeded generator as a
linear congruential generator driving selection without replacement; any
deterministic generator models the pandas contract, and the notebook's
reproducibility rests only on that determinism. -/

/-- One step of a linear congruential pseudo-random generator. -/
def lcg (s : Nat) : Nat := (1103515245 * s + 12345) % 2 ^ 31

/-- Seeded selection without replacement: pick a pseudo-random position,
remove that row, recurse.  Returns `min n (length)` rows. -/
def sampleAux : Nat → Nat → Matrix → Matrix
  | 0, _, _ => []
  | _ + 1, _, [] => []
  | n + 1, s, x :: xs =>
    let l := x :: xs
    let i := s % l.length
    l.getD i x :: sampleAux n (lcg s) (l.eraseIdx i)

/-- `df.sample(n, random_state=seed)`: a deterministic function of the
frame, the size and the seed. -/
def sample (X : Matrix) (n seed : Nat) : Matrix := sampleAux n (lcg seed) X

/-- Cells 19/21: the rows handed to `explainer.shap_values` and the rows
bound to `X_test_sample` for plotting.  When the test set exceeds 1000 rows
both are `X_test.sample(1000, random_state=42)`; otherwise both are the
full test set. -/
def shapInputs (X_test : Matrix) : Matrix × Matrix :=
  if 1000 < X_test.length then
    (sample X_test 1000 42, sample X_test 1000 42)
  else
    (X_test, X_test)

/- ## Attribution importance (cells 20–21)

`mean_abs_shap = np.abs(shap_values).mean(0)`; `feature_importance` zips the
column names with those means and sorts descending on the score.  The SHAP
matrix itself comes from the explainer (library code) and enters as data. -/

/-- Column `j` of `np.abs(shap_values).mean(0)`: the mean over samples of
the absolute attribution value of feature `j`. -/
def mean_abs_shap (shap : Matrix) (j : Nat) : ℚ :=
  ((shap.map (fun row => |row.getD j 0|)).sum) / (shap.length : ℚ)

/-- Insert one (feature, score) row into a descending-by-score list. -/
def insertDesc (x : String × ℚ) : List (String × ℚ) → List (String × ℚ)
  | [] => [x]
  | y :: ys => if y.2 < x.2 then x :: y :: ys else y :: insertDesc x ys

/-- Sort (feature, score) rows descending by score
(`sort_values('SHAP_Importance', ascending=False)`). -/
def sortDesc : List (String × ℚ) → List (String × ℚ)
  | [] => []
  | x :: xs => insertDesc x (sortDesc xs)

/-- `feature_importance = DataFrame(zip(columns, mean_abs_shap)).sort_values(
'SHAP_Importance', ascending=False)`: one (feature, mean absolute
attribution) row per feature, ranked descending. -/
def feature_importance (featureNames : List String) (shap : Matrix) :
    List (String × ℚ) :=
  sortDesc ((List.range featureNames.length).map
    (fun j => (featureNames.getD j "", mean_abs_shap shap j)))

/- ## Loading the input artifact (notebook cell 3)

`try: pickle.load(...) except Exception as e: print(...)`: every load
failure is caught, a message is printed, and the cell returns normally with
the data variables unbound.  The outcome of the pickle load enters as an
`Except` value; the cell itself is a total state transformer. -/

/-- The deserialised input artifact: four arrays plus the feature names. -/
structure PreprocessedData where
  x_train : Matrix
  x_test : Matrix
  y_train : List Bool
  y_test : List Bool
  feature_names : List String

/-- The interpreter state the notebook cells thread: the bound data (absent
before a successful load), the console log, and whether execution has
aborted (no cell of the notebook ever sets it). -/
structure NotebookState where
  data : Option PreprocessedData
  log : List String
  halted : Bool

/-- The state at the top of the run: nothing bound, nothing printed. -/
def initialState : NotebookState :=
  { data := none, log := [], halted := false }

/-- Cell 3: print the banner, attempt the pickle load; on success bind the
five variables, on any failure print the error text and fall through with
nothing bound.  The cell returns a state in both branches: no abort. -/
def loadCell (loadResult : Except String PreprocessedData)
    (s : NotebookState) : NotebookState :=
  let s0 := { s with log := s.log ++ ["Loading preprocessed data..."] }
  match loadResult with
  | .ok d =>
      { s0 with data := some d,
                log := s0.log ++ ["Data loaded successfully."] }
  | .error e =>
      { s0 with log := s0.log ++ ["Error loading preprocessed data: " ++ e] }

/- ## Persistence (notebook cell 25)

The save cell looks the winning display name up in `model_results_map`,
whose keys spell the PCA/autoencoder variants differently from the
comparison table (`'XGBoost with PCA'` vs `'XGBoost+PCA'`).  On a hit it
writes the winner, the conditional projector/encoder artifact, and the
stacked ensemble; on a miss it only prints the fallback message.  The
feature-importance CSV is written after the conditional, unconditionally. -/

/-- Python's `in` on strings: substring containment. -/
def strContains (hay needle : String) : Bool :=
  1 < (hay.splitOn needle).length

/-- `model_results_map`: keys as the save cell spells them. -/
def model_results_map (xgbR lgbR xgbPcaR lgbPcaR xgbAeR lgbAeR stackedR :
    EvalResult) : List (String × EvalResult) :=
  [("XGBoost", xgbR), ("LightGBM", lgbR),
   ("XGBoost with PCA", xgbPcaR), ("LightGBM with PCA", lgbPcaR),
   ("XGBoost with Autoencoder", xgbAeR), ("LightGBM with Autoencoder", lgbAeR),
   ("Stacked Ensemble", stackedR)]

/-- `f"{best_model_name.replace(' ', '_').lower()}.pkl"`. -/
def modelFileName (name : String) : String :=
  (name.replace " " "_").toLower ++ ".pkl"

/-- What the persistence cell produced: the files written under `models/`
and the console messages. -/
structure SaveOutcome where
  files : List String
  messages : List String

/-- Cell 25 body: `best_model_result = model_results_map.get(best_model_name)`,
then the `if best_model_result:` branch (model file, conditional
PCA/autoencoder artifact, stacked ensemble) or the fallback message, and
finally the unconditional `feature_importance.to_csv`. -/
def persistCell (resultsMap : List (String × EvalResult))
    (bestModelName : String) : SaveOutcome :=
  let branch : SaveOutcome :=
    match resultsMap.lookup bestModelName with
    | some _ =>
        { files :=
            [modelFileName bestModelName]
            ++ (if strContains bestModelName "PCA" then
                  ["pca_transformer.pkl"]
                else if strContains bestModelName "Autoencoder" then
                  ["autoencoder_encoder.h5"]
                else [])
            ++ ["stacked_ensemble.pkl"],
          messages :=
            ["Best model (" ++ bestModelName ++ ") saved to models/"
               ++ modelFileName bestModelName,
             "Stacked ensemble model also saved to models/stacked_ensemble.pkl"] }
    | none =>
        { files := [], messages := ["Could not find the best model to save."] }
  { branch with
      files := branch.files ++ ["feature_importance.csv"],
      messages := branch.messages
        ++ ["Feature importance information saved to models/feature_importance.csv"] }

/-! ## Lemmas about `listMax` and `idxmax` -/

theorem le_listMax {x : ℚ} {xs : List ℚ} (h : x ∈ xs) : x ≤ listMax xs := by
  induction xs with
  | nil => cases h
  | cons y ys ih =>
      cases ys with
      | nil =>
          rcases List.mem_cons.mp h with rfl | hm
          · exact le_of_eq rfl
          · cases hm
      | cons z zs =>
          rcases List.mem_cons.mp h with rfl | hm
          · exact le_max_left _ _
          · exact le_trans (ih hm) (le_max_right _ _)

theorem listMax_mem {xs : List ℚ} (h : xs ≠ []) : listMax xs ∈ xs := by
  induction xs with
  | nil => exact absurd rfl h
  | cons y ys ih =>
      cases ys with
      | nil => simp [listMax]
      | cons z zs =>
          rcases max_choice y (listMax (z :: zs)) with hm | hm
          · exact List.mem_cons.mpr (Or.inl (by rw [listMax, hm]))
          · refine List.mem_cons.mpr (Or.inr ?_)
            rw [listMax, hm]
            exact ih (by simp)

theorem idxmax_lt_length {xs : List ℚ} (h : xs ≠ []) : idxmax xs < xs.length := by
  apply List.findIdx_lt_length_of_exists
  exact ⟨listMax xs, listMax_mem h, by simp⟩

theorem getD_idxmax_eq_listMax {xs : List ℚ} (h : xs ≠ []) :
    xs.getD (idxmax xs) 0 = listMax xs := by
  have hlt := idxmax_lt_length h
  rw [List.getD_eq_getElem xs 0 hlt]
  have h1 : listMax xs ≤ xs[idxmax xs] := by
    have := @List.findIdx_getElem _ (fun x => decide (listMax xs ≤ x)) xs hlt
    exact of_decide_eq_true this
  exact le_antisymm (le_listMax (xs.getElem_mem hlt)) h1

theorem lt_of_lt_idxmax {xs : List ℚ} {j : ℕ} (hj : j < idxmax xs) :
    xs.getD j 0 < listMax xs := by
  have hjl : j < xs.length := lt_of_lt_of_le hj (List.findIdx_le_length _)
  rw [List.getD_eq_getElem xs 0 hjl]
  have := @List.not_of_lt_findIdx _ (fun x => decide (listMax xs ≤ x)) xs j hj
  have hnot : ¬ listMax xs ≤ xs[j] := of_decide_eq_false this
  exact lt_of_not_le hnot

/-- **C1.** Model selection (`best_model_idx = comparison_df['F1 Score'].idxmax()`)
picks the row of the comparison table whose F1 score is maximal; when several
rows share the maximum, the first occurrence in the table's stable order wins
(every strictly earlier row has a strictly smaller F1 score), and this holds
for every placement of the maximum in the column. -/
theorem selection_picks_first_max_f1 (f1s : List ℚ) (h : f1s ≠ []) :
    best_model_idx f1s < f1s.length ∧
    (∀ f ∈ f1s, f ≤ f1s.getD (best_model_idx f1s) 0) ∧
    (∀ j, j < best_model_idx f1s →
      f1s.getD j 0 < f1s.getD (best_model_idx f1s) 0) := by
  refine ⟨idxmax_lt_length h, ?_, ?_⟩
  · intro f hf
    show f ≤ f1s.getD (idxmax f1s) 0
    rw [getD_idxmax_eq_listMax h]
    exact le_listMax hf
  · intro j hj
    show f1s.getD j 0 < f1s.getD (idxmax f1s) 0
    rw [getD_idxmax_eq_listMax h]
    exact lt_of_lt_idxmax hj

/-- **C1 witness.** On the spec's scenario column `[0.80, 0.92, 0.85]` the
selection returns index 1, the row holding 0.92, and the theorem applies. -/
theorem selection_picks_first_max_f1_witness :
    ([(80:ℚ)/100, 92/100, 85/100] : List ℚ) ≠ [] ∧
    best_model_idx [(80:ℚ)/100, 92/100, 85/100] = 1 ∧
    (∀ f ∈ ([(80:ℚ)/100, 92/100, 85/100] : List ℚ),
      f ≤ ([(80:ℚ)/100, 92/100, 85/100] : List ℚ).getD
        (best_model_idx [(80:ℚ)/100, 92/100, 85/100]) 0) :=
  ⟨by simp, by norm_num [best_model_idx, idxmax, listMax, List.findIdx, List.findIdx.go],
    (selection_picks_first_max_f1 [(80:ℚ)/100, 92/100, 85/100] (by simp)).2.1⟩

/-! ## The harness's AUC behaviour (C2, C10) -/

/-- A fitted model with no `predict_proba` attribute (predicts the negative
class everywhere); calling its probability output raises `AttributeError`. -/
def constFalseModel : MLModel :=
  { predict := fun X => X.map (fun _ => false), predict_proba := none }

/-- A classifier whose fit returns `constFalseModel`. -/
def clfNoProba : Classifier := { fit := fun _ _ => constFalseModel }

/-- A fitted model exposing a (constant) probability output. -/
def constProbaModel : MLModel :=
  { predict := fun X => X.map (fun _ => true),
    predict_proba := some (fun X => X.map (fun _ => 0)) }

/-- A classifier whose fit returns `constProbaModel`. -/
def clfProba : Classifier := { fit := fun _ _ => constProbaModel }

/-- **C2.** A result bundle returned by `evaluate_model` has a present AUC
exactly when the fitted classifier exposes probability output; and when
probability output is unsupported, the run does not fail: it returns a
bundle whose accuracy, precision, recall and F1 are the computed scores and
whose AUC is the explicit absent value `none` (not a number). -/
theorem auc_present_iff_proba (clf : Classifier) (X_train X_test : Matrix)
    (y_train y_test : List Bool) :
    (∀ r, evaluate_model clf X_train X_test y_train y_test = .ok r →
      (r.auc.isSome ↔ ((clf.fit X_train y_train).predict_proba).isSome)) ∧
    (((clf.fit X_train y_train).predict_proba = none →
      evaluate_model clf X_train X_test y_train y_test =
        .ok { model := clf.fit X_train y_train
              accuracy := accuracy_score y_test
                ((clf.fit X_train y_train).predict X_test)
              precision := precision_score y_test
                ((clf.fit X_train y_train).predict X_test)
              recall' := recall_score y_test
                ((clf.fit X_train y_train).predict X_test)
              f1 := f1_score y_test
                ((clf.fit X_train y_train).predict X_test)
              auc := none })) := by
  constructor
  · intro r hr
    cases hp : (clf.fit X_train y_train).predict_proba with
    | none =>
        simp only [evaluate_model, auc_block, predict_proba_call, hp,
          Except.bind, Except.map] at hr
        cases hr
        simp [hp]
    | some f =>
        cases hroc : roc_auc_score y_test (f X_test) with
        | ok a =>
            simp only [evaluate_model, auc_block, predict_proba_call, hp,
              Except.bind, Except.map, hroc] at hr
            cases hr
            simp [hp]
        | error e =>
            cases e with
            | attributeError =>
                exact absurd hroc (by simp [roc_auc_score]; split <;> simp)
            | valueError =>
                simp only [evaluate_model, auc_block, predict_proba_call, hp,
                  Except.bind, Except.map, hroc] at hr
                exact Except.noConfusion hr
  · intro hp
    simp [evaluate_model, auc_block, predict_proba_call, hp, Except.bind,
      Except.map]

/-- **C2 witness.** Evaluating the probability-less classifier on a
one-sample test set succeeds with all four threshold metrics computed and
AUC explicitly absent. -/
theorem auc_present_iff_proba_witness :
    evaluate_model clfNoProba [] [[1]] [] [true] =
      .ok { model := clfNoProba.fit [] []
            accuracy := accuracy_score [true] ((clfNoProba.fit [] []).predict [[1]])
            precision := precision_score [true] ((clfNoProba.fit [] []).predict [[1]])
            recall' := recall_score [true] ((clfNoProba.fit [] []).predict [[1]])
            f1 := f1_score [true] ((clfNoProba.fit [] []).predict [[1]])
            auc := none } :=
  (auc_present_iff_proba clfNoProba [] [[1]] [] [true]).2 rfl

/-- **C10.** In `evaluate_model`'s `try` block, a missing `predict_proba`
(Python's `AttributeError`) is the one failure converted into an absent AUC
with the run succeeding; a `ValueError` arising from the AUC computation is
not caught and surfaces as the run's terminal error. -/
theorem only_attribute_error_caught (clf : Classifier) (X_train X_test : Matrix)
    (y_train y_test : List Bool) :
    ((clf.fit X_train y_train).predict_proba = none →
      ∃ r, evaluate_model clf X_train X_test y_train y_test = .ok r ∧
        r.auc = none) ∧
    (∀ f, (clf.fit X_train y_train).predict_proba = some f →
      roc_auc_score y_test (f X_test) = .error .valueError →
      evaluate_model clf X_train X_test y_train y_test = .error .valueError) := by
  constructor
  · intro hp
    refine ⟨{ model := clf.fit X_train y_train
              accuracy := accuracy_score y_test
                ((clf.fit X_train y_train).predict X_test)
              precision := precision_score y_test
                ((clf.fit X_train y_train).predict X_test)
              recall' := recall_score y_test
                ((clf.fit X_train y_train).predict X_test)
              f1 := f1_score y_test
                ((clf.fit X_train y_train).predict X_test)
              auc := none }, ?_, rfl⟩
    simp [evaluate_model, auc_block, predict_proba_call, hp, Except.bind,
      Except.map]
  · intro f hp hroc
    simp [evaluate_model, auc_block, predict_proba_call, hp, hroc,
      Except.bind, Except.map]

/-- **C10 witness.** The probability-less classifier degrades to an absent
AUC, while a classifier with probability output evaluated on a
single-class test label vector propagates `ValueError` and the run fails. -/
theorem only_attribute_error_caught_witness :
    (∃ r, evaluate_model clfNoProba [] [[1]] [] [true] = .ok r ∧ r.auc = none) ∧
    evaluate_model clfProba [] [[1]] [] [true] = .error .valueError :=
  ⟨(only_attribute_error_caught clfNoProba [] [[1]] [] [true]).1 rfl,
   (only_attribute_error_caught clfProba [] [[1]] [] [true]).2
     (fun X => X.map (fun _ => 0)) rfl rfl⟩

/-! ## Dimensionality-reduction invariants (C6, C7) -/

/-- **C6.** Both reductions are fit on the training partition alone:
the fitted parameters threaded through the whole cell are exactly the fit
of the training matrix, and transforming the test partition with the
frozen transform leaves them untouched — identical parameters result for
every test matrix, so nothing is ever re-fit on test data. -/
theorem reductions_never_fit_on_test (pcaFit : Matrix → PCAParams)
    (aeFit : Matrix → EncoderWeights) (X_train X_test X_testAlt : Matrix) :
    (pcaCell pcaFit X_train X_test).1 = pcaFit X_train ∧
    (autoencoderCell aeFit X_train X_test).1 = aeFit X_train ∧
    (pcaCell pcaFit X_train X_test).1 = (pcaCell pcaFit X_train X_testAlt).1 ∧
    (autoencoderCell aeFit X_train X_test).1 =
      (autoencoderCell aeFit X_train X_testAlt).1 :=
  ⟨rfl, rfl, rfl, rfl⟩

/-- **C7.** Every derived representation preserves the row count and row
order of its source matrix: the projected matrix has one output row per
input row, the `i`-th output row is the transform of the `i`-th input row,
and each projected row has one entry per component. -/
theorem derived_rows_match_source (p : PCAParams) (w : EncoderWeights)
    (X : Matrix) :
    (pcaTransform p X).length = X.length ∧
    (∀ i, i < X.length →
      (pcaTransform p X).getD i [] = pcaTransformRow p (X.getD i [])) ∧
    (∀ row ∈ pcaTransform p X, row.length = p.components.length) ∧
    (encoderPredictS w X).1.length = X.length ∧
    (∀ i, i < X.length →
      (encoderPredictS w X).1.getD i [] = w.encode (X.getD i [])) := by
  refine ⟨List.length_map _ _, ?_, ?_, List.length_map _ _, ?_⟩
  · intro i hi
    have hi' : i < (pcaTransform p X).length := by
      simpa [pcaTransform] using hi
    rw [List.getD_eq_getElem _ _ hi', List.getD_eq_getElem _ _ hi]
    exact List.getElem_map _
  · intro row hrow
    rcases List.mem_map.mp hrow with ⟨r, _, rfl⟩
    simp [pcaTransformRow]
  · intro i hi
    have hi' : i < (encoderPredictS w X).1.length := by
      simpa [encoderPredictS] using hi
    rw [List.getD_eq_getElem _ _ hi', List.getD_eq_getElem _ _ hi]
    exact List.getElem_map _

/-- The spec scenario's projector: 2 components over 4 features. -/
def pcaTwoComp : PCAParams :=
  { mean := [0, 0, 0, 0],
    components := [[1, 0, 0, 0], [0, 1, 0, 0]] }

/-- The spec scenario's 30-row test matrix over 4 numeric features. -/
def toyTestMatrix : Matrix := List.replicate 30 [1, 2, 3, 4]

/-- **C7 witness.** A 2-component linear projection of the 30-row toy test
matrix yields a matrix of shape (30, 2), row `i` being the projection of
source row `i`. -/
theorem derived_rows_match_source_witness :
    (pcaTransform pcaTwoComp toyTestMatrix).length = 30 ∧
    (pcaTransform pcaTwoComp toyTestMatrix).getD 0 [] =
      pcaTransformRow pcaTwoComp (toyTestMatrix.getD 0 []) ∧
    (∀ row ∈ pcaTransform pcaTwoComp toyTestMatrix, row.length = 2) := by
  refine ⟨?_, ?_, ?_⟩
  · exact ((derived_rows_match_source pcaTwoComp ⟨id⟩ toyTestMatrix).1).trans
      (by simp [toyTestMatrix])
  · exact (derived_rows_match_source pcaTwoComp ⟨id⟩ toyTestMatrix).2.1 0
      (by simp [toyTestMatrix])
  · intro row hrow
    exact ((derived_rows_match_source pcaTwoComp ⟨id⟩ toyTestMatrix).2.2.1
      row hrow).trans (by simp [pcaTwoComp])

/-! ## Attribution subsampling (C4) -/

theorem sampleAux_length (n : Nat) : ∀ (s : Nat) (X : Matrix),
    (sampleAux n s X).length = min n X.length := by
  induction n with
  | zero => intro s X; simp [sampleAux]
  | succ n ih =>
      intro s X
      cases X with
      | nil => simp [sampleAux]
      | cons x xs =>
          have hi : s % (x :: xs).length < (x :: xs).length :=
            Nat.mod_lt _ (by simp)
          simp only [sampleAux, List.length_cons, ih,
            List.length_eraseIdx]
          simp only [List.length_cons] at hi
          rw [if_pos hi]
          omega

/-- **C4.** The attribution cell: when the test set exceeds 1000 rows,
the SHAP values are computed on the fixed-seed (42) 1000-row subsample,
plotting uses the same rows (the seeded sampler is deterministic, so the
repeated call reproduces the identical subsample), and that subsample has
exactly 1000 rows; otherwise both attribution and plotting use the full
test set. -/
theorem shap_subsample_rule (X_test : Matrix) :
    (1000 < X_test.length →
      (shapInputs X_test).1 = sample X_test 1000 42 ∧
      (shapInputs X_test).2 = (shapInputs X_test).1 ∧
      (shapInputs X_test).1.length = 1000) ∧
    (¬ 1000 < X_test.length →
      (shapInputs X_test).1 = X_test ∧ (shapInputs X_test).2 = X_test) := by
  constructor
  · intro h
    refine ⟨by simp [shapInputs, h], by simp [shapInputs, h], ?_⟩
    simp only [shapInputs, h, if_pos]
    rw [sample, sampleAux_length]
    omega
  · intro h
    exact ⟨by simp [shapInputs, h], by simp [shapInputs, h]⟩

/-- **C4 witness.** On a 1001-row test set the subsample path is taken and
produces exactly 1000 rows shared by attribution and plotting; on a 1-row
test set the full set is used. -/
theorem shap_subsample_rule_witness :
    ((shapInputs (List.replicate 1001 [0])).1 =
        sample (List.replicate 1001 [0]) 1000 42 ∧
      (shapInputs (List.replicate 1001 [0])).2 =
        (shapInputs (List.replicate 1001 [0])).1 ∧
      (shapInputs (List.replicate 1001 [0])).1.length = 1000) ∧
    ((shapInputs [[1]]).1 = [[1]] ∧ (shapInputs [[1]]).2 = [[1]]) :=
  ⟨(shap_subsample_rule (List.replicate 1001 [0])).1
     (by simp only [List.length_replicate]; omega),
   (shap_subsample_rule [[1]]).2 (by simp)⟩

/-! ## Attribution importance consistency (C5) -/

theorem mem_insertDesc {a x : String × ℚ} {l : List (String × ℚ)} :
    a ∈ insertDesc x l ↔ a = x ∨ a ∈ l := by
  induction l with
  | nil => simp [insertDesc]
  | cons y ys ih =>
      simp only [insertDesc]
      split
      · simp [List.mem_cons]
      · simp only [List.mem_cons, ih]
        tauto

theorem mem_sortDesc {a : String × ℚ} {l : List (String × ℚ)} :
    a ∈ sortDesc l ↔ a ∈ l := by
  induction l with
  | nil => simp [sortDesc]
  | cons x xs ih =>
      simp only [sortDesc, mem_insertDesc, List.mem_cons, ih]

theorem insertDesc_head_max {x : String × ℚ} {l : List (String × ℚ)}
    {d : String × ℚ} (hl : ∀ a ∈ l, a.2 ≤ (l.headD d).2) :
    ∀ a ∈ insertDesc x l, a.2 ≤ ((insertDesc x l).headD d).2 := by
  induction l with
  | nil =>
      intro a ha
      simp only [insertDesc, List.mem_singleton] at ha
      simp [insertDesc, ha]
  | cons y ys ih =>
      intro a ha
      simp only [insertDesc] at ha ⊢
      by_cases hxy : y.2 < x.2
      · rw [if_pos hxy] at ha ⊢
        simp only [List.headD_cons]
        rcases List.mem_cons.mp ha with rfl | ha'
        · exact le_refl _
        · exact le_of_lt (lt_of_le_of_lt (hl a ha') hxy)
      · rw [if_neg hxy] at ha ⊢
        simp only [List.headD_cons]
        rcases List.mem_cons.mp ha with rfl | ha'
        · exact le_refl _
        · rcases mem_insertDesc.mp ha' with rfl | ha''
          · exact le_of_not_lt hxy
          · exact hl a (List.mem_cons.mpr (Or.inr ha''))

theorem sortDesc_head_max {l : List (String × ℚ)} {d : String × ℚ} :
    ∀ a ∈ sortDesc l, a.2 ≤ ((sortDesc l).headD d).2 := by
  induction l with
  | nil => intro a ha; cases ha
  | cons x xs ih =>
      exact insertDesc_head_max ih

theorem mean_abs_shap_nonneg (shap : Matrix) (j : Nat) :
    0 ≤ mean_abs_shap shap j := by
  apply div_nonneg
  · apply List.sum_nonneg
    intro x hx
    rcases List.mem_map.mp hx with ⟨row, _, rfl⟩
    exact abs_nonneg _
  · exact_mod_cast Nat.zero_le _

/-- **C5.** Every score in the per-classifier attribution-importance table
is non-negative (it is a mean of absolute attribution values), and the
first-ranked row's score bounds every row's score and every feature's mean
absolute attribution: the feature ranked first attains the maximum. -/
theorem attribution_ranking_consistent (featureNames : List String)
    (shap : Matrix) :
    (∀ p ∈ feature_importance featureNames shap, 0 ≤ p.2) ∧
    (∀ p ∈ feature_importance featureNames shap,
      p.2 ≤ ((feature_importance featureNames shap).headD ("", 0)).2) ∧
    (∀ j, j < featureNames.length →
      mean_abs_shap shap j ≤
        ((feature_importance featureNames shap).headD ("", 0)).2) := by
  refine ⟨?_, ?_, ?_⟩
  · intro p hp
    rcases List.mem_map.mp (mem_sortDesc.mp hp) with ⟨j, _, rfl⟩
    exact mean_abs_shap_nonneg shap j
  · intro p hp
    exact sortDesc_head_max p hp
  · intro j hj
    simp only [feature_importance]
    have hmem : (featureNames.getD j "", mean_abs_shap shap j) ∈
        sortDesc ((List.range featureNames.length).map
          (fun i => (featureNames.getD i "", mean_abs_shap shap i))) := by
      rw [mem_sortDesc]
      exact List.mem_map.mpr ⟨j, List.mem_range.mpr hj, rfl⟩
    exact sortDesc_head_max _ hmem

/-- **C5 witness.** On a 2-feature, 2-sample attribution matrix every
tabulated score is non-negative and the top-ranked score dominates both
features' mean absolute attributions. -/
theorem attribution_ranking_consistent_witness :
    (∀ p ∈ feature_importance ["glucose", "bmi"] [[1, -2], [3, 4]], 0 ≤ p.2) ∧
    mean_abs_shap [[1, -2], [3, 4]] 0 ≤
      ((feature_importance ["glucose", "bmi"] [[1, -2], [3, 4]]).headD ("", 0)).2 :=
  ⟨(attribution_ranking_consistent ["glucose", "bmi"] [[1, -2], [3, 4]]).1,
   (attribution_ranking_consistent ["glucose", "bmi"] [[1, -2], [3, 4]]).2.2 0
     (by simp)⟩

/-! ## Load-failure handling (C8) -/

/-- **C8.** When the pickle load fails with any error, the load cell
catches it: the failure surfaces as an appended console message, execution
is not aborted (the `halted` flag stays down and the cell returns a state
for the next cell to consume), and nothing is recovered — starting from
the fresh interpreter state, the data variables remain unbound. -/
theorem load_failure_caught_and_continues (e : String) (s : NotebookState) :
    (loadCell (.error e) s).halted = s.halted ∧
    (loadCell (.error e) s).data = s.data ∧
    (loadCell (.error e) s).log =
      s.log ++ ["Loading preprocessed data...",
                "Error loading preprocessed data: " ++ e] ∧
    (loadCell (.error e) initialState).data = none ∧
    (loadCell (.error e) initialState).halted = false := by
  refine ⟨rfl, rfl, ?_, rfl, rfl⟩
  simp [loadCell]

/-! ## Persistence and the display-name mismatch (C3, C9) -/

/-- A result bundle with the given F1 score, for exercising the selection
and persistence cells on concrete tables. -/
def dummyResult (f1v : ℚ) : EvalResult :=
  { model := constFalseModel, accuracy := 0, precision := 0, recall' := 0,
    f1 := f1v, auc := none }

/-- **C9.** The four PCA/autoencoder configurations are spelled with `+` in
the comparison table but with `with` in `model_results_map`, so whenever
one of them wins, the result lookup misses: the fallback message is the
branch's only output, no model, projector, encoder or ensemble file is
written, and yet the feature-importance table is still written. -/
theorem plus_named_winner_saves_no_model (xgbR lgbR xgbPcaR lgbPcaR xgbAeR
    lgbAeR stackedR : EvalResult) :
    ∀ name ∈ (["XGBoost+PCA", "LightGBM+PCA", "XGBoost+Autoencoder",
               "LightGBM+Autoencoder"] : List String),
      (model_results_map xgbR lgbR xgbPcaR lgbPcaR xgbAeR lgbAeR
        stackedR).lookup name = none ∧
      (persistCell (model_results_map xgbR lgbR xgbPcaR lgbPcaR xgbAeR
        lgbAeR stackedR) name).messages =
        ["Could not find the best model to save.",
         "Feature importance information saved to models/feature_importance.csv"] ∧
      (persistCell (model_results_map xgbR lgbR xgbPcaR lgbPcaR xgbAeR
        lgbAeR stackedR) name).files = ["feature_importance.csv"] := by
  intro name hname
  have hlookup : (model_results_map xgbR lgbR xgbPcaR lgbPcaR xgbAeR lgbAeR
      stackedR).lookup name = none := by
    simp only [List.mem_cons, List.not_mem_nil, or_false] at hname
    rcases hname with rfl | rfl | rfl | rfl
    · rfl
    · rfl
    · rfl
    · rfl
  refine ⟨hlookup, ?_, ?_⟩ <;> simp [persistCell, hlookup]

/-- **C9 witness.** An `XGBoost+PCA` win writes only the
feature-importance table. -/
theorem plus_named_winner_saves_no_model_witness :
    (model_results_map (dummyResult 0) (dummyResult 0) (dummyResult 0)
      (dummyResult 0) (dummyResult 0) (dummyResult 0)
      (dummyResult 0)).lookup "XGBoost+PCA" = none ∧
    (persistCell (model_results_map (dummyResult 0) (dummyResult 0)
      (dummyResult 0) (dummyResult 0) (dummyResult 0) (dummyResult 0)
      (dummyResult 0)) "XGBoost+PCA").files = ["feature_importance.csv"] := by
  have h := plus_named_winner_saves_no_model (dummyResult 0) (dummyResult 0)
    (dummyResult 0) (dummyResult 0) (dummyResult 0) (dummyResult 0)
    (dummyResult 0) "XGBoost+PCA" (by simp)
  exact ⟨h.1, h.2.2⟩

/-- **C3 counterexample.** With F1 column
`[0.80, 0.80, 0.95, 0.80, 0.80, 0.80, 0.90]` the selection crowns
`XGBoost+PCA` — a possible winning configuration — and on that winner the
persistence cell writes no `stacked_ensemble.pkl`: the ensemble is *not*
persisted for every possible winning configuration. -/
theorem ensemble_not_always_saved :
    best_model_name ((comparison_results (dummyResult (80/100))
        (dummyResult (80/100)) (dummyResult (95/100)) (dummyResult (80/100))
        (dummyResult (80/100)) (dummyResult (80/100))
        (dummyResult (90/100))).map EvalResult.f1) = "XGBoost+PCA" ∧
    "stacked_ensemble.pkl" ∉ (persistCell (model_results_map
        (dummyResult (80/100)) (dummyResult (80/100)) (dummyResult (95/100))
        (dummyResult (80/100)) (dummyResult (80/100)) (dummyResult (80/100))
        (dummyResult (90/100))) "XGBoost+PCA").files := by
  constructor
  · norm_num [best_model_name, best_model_idx, idxmax, listMax,
      List.findIdx, List.findIdx.go, models, comparison_results, dummyResult]
  · simp [persistCell, model_results_map, List.lookup]

/-- **C3 (amended).** Whenever the winning display name is found in
`model_results_map` — in particular for the winners `XGBoost`, `LightGBM`
and `Stacked Ensemble`, so also when the winner is not the ensemble
itself — the persistence cell writes the stacked ensemble file. -/
theorem ensemble_saved_when_lookup_hits (resultsMap : List (String × EvalResult))
    (name : String) (r : EvalResult) (h : resultsMap.lookup name = some r) :
    "stacked_ensemble.pkl" ∈ (persistCell resultsMap name).files := by
  simp [persistCell, h]

/-- **C3 witness.** A non-ensemble winner whose name the map does hold
(`XGBoost`) still gets the stacked ensemble persisted alongside it. -/
theorem ensemble_saved_when_lookup_hits_witness :
    "stacked_ensemble.pkl" ∈ (persistCell (model_results_map (dummyResult 0)
      (dummyResult 0) (dummyResult 0) (dummyResult 0) (dummyResult 0)
      (dummyResult 0) (dummyResult 0)) "XGBoost").files :=
  ensemble_saved_when_lookup_hits _ "XGBoost" (dummyResult 0) rfl

end Diabetes
